import Mathlib

/-!
Verification of the `mapboxgl-comparison` custom rendering layer
(`lib/CustomLayer.ts` and `lib/shaders/*.ts`).

The TypeScript code is shallowly embedded:
* WebGL calls become an explicit command trace (`GLCall`); a call to
  the default `render` / `setupLayer` hooks is a pure function from
  its inputs (plus a `GLEnv` oracle describing which GL operations
  succeed) to the trace it would emit and the value it returns.
* The `ComparisonLayer` class becomes a state record; each method is a
  pure transition producing the next state, a list of host-side
  effects, a GL trace, and (where the method can throw) an error.
* GLSL shader `main` bodies become functions over exact rationals.
-/

/-- Data object controlling comparison-layer visibility
(`ComparisonLayerData` in `CustomLayer.ts`): normalized offsets. -/
structure ComparisonLayerData where
  offsetX : ℚ
  offsetY : ℚ
deriving DecidableEq, Repr

/-- An RGBA color as produced by `texture2D` sampling. -/
structure RGBA where
  r : ℚ
  g : ℚ
  b : ℚ
  a : ℚ
deriving DecidableEq, Repr

/-- The fragment shader `main` of `lib/shaders/fragmentShader.ts`:
`canvasCoord = gl_FragCoord.xy / uDevicePixelRatio`; the fragment is
discarded (`none`) when `canvasCoord.x > vOffsetX || canvasCoord.y >
vOffsetY`, otherwise the sampled color is written unmodified. -/
def fragmentShaderMain (dpr vOffsetX vOffsetY fragX fragY : ℚ)
    (color : RGBA) : Option RGBA :=
  let canvasX := fragX / dpr
  let canvasY := fragY / dpr
  if canvasX > vOffsetX ∨ canvasY > vOffsetY then
    none
  else
    some ⟨color.r, color.g, color.b, color.a⟩

/-- A fragment is visible when the fragment shader does not discard it. -/
def fragmentVisible (dpr vOffsetX vOffsetY fragX fragY : ℚ)
    (color : RGBA) : Bool :=
  (fragmentShaderMain dpr vOffsetX vOffsetY fragX fragY color).isSome

/-- The vertex shader of `lib/shaders/vertexShader.ts` passes the
offset uniforms to the fragment stage unchanged:
`vOffsetX = uOffsetX; vOffsetY = uOffsetY`. -/
def vertexVaryingOffsets (uOffsetX uOffsetY : ℚ) : ℚ × ℚ :=
  (uOffsetX, uOffsetY)

/-- Shader stages, used to tag GL shader-object calls. -/
inductive ShaderKind where
  | vertex
  | fragment
deriving DecidableEq, Repr

/-- Primitive mode of a draw call (`gl.TRIANGLES` is the only one used). -/
inductive DrawMode where
  | triangles
deriving DecidableEq, Repr

/-- One WebGL call, as recorded in a command trace. Constructors carry
exactly the arguments the claims need to observe. -/
inductive GLCall where
  | createShader (kind : ShaderKind)
  | shaderSource (kind : ShaderKind)
  | compileShader (kind : ShaderKind)
  | deleteShader (kind : ShaderKind)
  | createProgram
  | attachShader (kind : ShaderKind)
  | linkProgram
  | validateProgram
  | deleteProgram
  | getAttribLocation (name : String)
  | getUniformLocation (name : String)
  | createBuffer
  | bindBuffer
  | bufferData (values : List ℚ)
  | deleteBuffer
  | useProgram
  | uniform1fOffsetX (v : ℚ)
  | uniform1fOffsetY (v : ℚ)
  | uniform1fDpr (v : ℚ)
  | uniform1iTexture (unit : ℤ)
  | activeTexture
  | bindTexture (handle : ℕ)
  | texParameteri
  | enableVertexAttribArray
  | vertexAttribPointer
  | uniformMatrix4fv
  | depthFunc
  | drawArrays (mode : DrawMode) (first count : ℕ)
deriving DecidableEq, Repr

/-- A loaded tile texture (`tile.texture.texture` handle). -/
structure Texture where
  texture : ℕ
deriving DecidableEq, Repr

/-- A tile identifier exposing the per-tile projection matrix. -/
structure TileID where
  projMatrix : List ℚ
deriving DecidableEq, Repr

/-- A visible tile as handed to the render hook: its texture may be
absent when not yet loaded. -/
structure Tile where
  texture : Option Texture
  tileID : TileID
deriving DecidableEq, Repr

/-- The extended WebGL program handle (`ComparisonLayerProgram`):
cached attribute/uniform locations and the vertex buffer. -/
structure ComparisonLayerProgram where
  aPos : ℤ
  uMatrix : Option ℕ
  uTexture : Option ℕ
  uOffsetX : Option ℕ
  uOffsetY : Option ℕ
  uDevicePixelRatio : Option ℕ
  vertexBuffer : Option ℕ
deriving DecidableEq, Repr

/-- The fixed unit-quad vertex array of `setupLayer`:
`(0,0),(1,0),(0,1),(0,1),(1,0),(1,1)`. -/
def vertexArray : List ℚ := [0, 0, 1, 0, 0, 1, 0, 1, 1, 0, 1, 1]

/-- GL trace of the per-tile body of the default `render` hook: skip
when the tile has no texture, else bind the texture, set wrap/filter
parameters, bind the shared buffer, describe `aPos`, set the per-tile
matrix and the texture unit, and draw 6 vertices as triangles. -/
def renderTile (tile : Tile) : List GLCall :=
  match tile.texture with
  | none => []
  | some tex =>
    [GLCall.activeTexture, GLCall.bindTexture tex.texture,
     GLCall.texParameteri, GLCall.texParameteri,
     GLCall.texParameteri, GLCall.texParameteri,
     GLCall.bindBuffer, GLCall.enableVertexAttribArray,
     GLCall.vertexAttribPointer,
     GLCall.uniformMatrix4fv, GLCall.uniform1iTexture 0,
     GLCall.depthFunc,
     GLCall.drawArrays DrawMode.triangles 0 6]

/-- The default `render` hook (`CustomLayer.ts`, `export function
render`): activate the program, set `uOffsetX = data.offsetX * width`,
`uOffsetY = data.offsetY * height` and the device pixel ratio once,
then process each tile. `matrix` is the (unused) layer matrix; `dpr`
stands for the global `window.devicePixelRatio`. -/
def render (matrix : List ℚ) (tiles : List Tile)
    (program : ComparisonLayerProgram) (data : ComparisonLayerData)
    (width height dpr : ℚ) : List GLCall :=
  [GLCall.useProgram,
   GLCall.uniform1fOffsetX (data.offsetX * width),
   GLCall.uniform1fOffsetY (data.offsetY * height),
   GLCall.uniform1fDpr dpr]
  ++ tiles.flatMap renderTile

/-- Alias for the default render hook, usable inside the
`ComparisonLayer` namespace where the plain name `render` would refer
to the method. -/
def renderHook := render

/-- Oracle for the WebGL environment during `setupLayer`: which
creations succeed, which compiles/links succeed, the diagnostic logs,
the resolved locations, and the global device pixel ratio. -/
structure GLEnv where
  createVertexShaderOk : Bool
  vertexCompileOk : Bool
  vertexInfoLog : String
  createFragmentShaderOk : Bool
  fragmentCompileOk : Bool
  fragmentInfoLog : String
  createProgramOk : Bool
  linkOk : Bool
  programInfoLog : String
  aPosLoc : ℤ
  uMatrixLoc : Option ℕ
  uTextureLoc : Option ℕ
  uOffsetXLoc : Option ℕ
  uOffsetYLoc : Option ℕ
  uDprLoc : Option ℕ
  bufferHandle : Option ℕ
  dpr : ℚ
deriving DecidableEq, Repr

/-- The default `setupLayer` hook: compile both shaders (checking each
compile status; on failure delete what was created and throw), create
and link the program (on link failure delete program and both shaders
and throw), cache locations, create the unit-quad buffer, and
initialize the offset uniforms with the raw `data` values. Returns
the emitted GL trace together with the thrown error or the program. -/
def setupLayer (env : GLEnv) (data : ComparisonLayerData) :
    List GLCall × Except String ComparisonLayerProgram :=
  if !env.createVertexShaderOk then
    ([GLCall.createShader ShaderKind.vertex],
     Except.error "[shader] failed to create vertex shader")
  else
    let t1 : List GLCall :=
      [GLCall.createShader ShaderKind.vertex,
       GLCall.shaderSource ShaderKind.vertex,
       GLCall.compileShader ShaderKind.vertex]
    if !env.vertexCompileOk then
      (t1 ++ [GLCall.deleteShader ShaderKind.vertex],
       Except.error
         ("[shader] vertex shader compilation failed: " ++ env.vertexInfoLog))
    else if !env.createFragmentShaderOk then
      (t1 ++ [GLCall.createShader ShaderKind.fragment,
              GLCall.deleteShader ShaderKind.vertex],
       Except.error "[shader] failed to create fragment shader")
    else
      let t2 : List GLCall :=
        t1 ++ [GLCall.createShader ShaderKind.fragment,
               GLCall.shaderSource ShaderKind.fragment,
               GLCall.compileShader ShaderKind.fragment]
      if !env.fragmentCompileOk then
        (t2 ++ [GLCall.deleteShader ShaderKind.vertex,
                GLCall.deleteShader ShaderKind.fragment],
         Except.error
           ("[shader] fragment shader compilation failed: " ++
            env.fragmentInfoLog))
      else if !env.createProgramOk then
        (t2 ++ [GLCall.createProgram],
         Except.error "[program] failed to create program")
      else
        let t3 : List GLCall :=
          t2 ++ [GLCall.createProgram,
                 GLCall.attachShader ShaderKind.vertex,
                 GLCall.attachShader ShaderKind.fragment,
                 GLCall.linkProgram]
        if !env.linkOk then
          (t3 ++ [GLCall.deleteProgram,
                  GLCall.deleteShader ShaderKind.vertex,
                  GLCall.deleteShader ShaderKind.fragment],
           Except.error
             ("[program] shader program linking failed: " ++
              env.programInfoLog))
        else
          (t3 ++ [GLCall.validateProgram,
                  GLCall.getAttribLocation "aPos",
                  GLCall.getUniformLocation "uMatrix",
                  GLCall.getUniformLocation "uTexture",
                  GLCall.getUniformLocation "uOffsetX",
                  GLCall.getUniformLocation "uOffsetY",
                  GLCall.getUniformLocation "uDevicePixelRatio",
                  GLCall.createBuffer, GLCall.bindBuffer,
                  GLCall.bufferData vertexArray,
                  GLCall.useProgram,
                  GLCall.uniform1fOffsetX data.offsetX,
                  GLCall.uniform1fOffsetY data.offsetY,
                  GLCall.uniform1fDpr env.dpr],
           Except.ok
             { aPos := env.aPosLoc, uMatrix := env.uMatrixLoc,
               uTexture := env.uTextureLoc, uOffsetX := env.uOffsetXLoc,
               uOffsetY := env.uOffsetYLoc, uDevicePixelRatio := env.uDprLoc,
               vertexBuffer := env.bufferHandle })

/-- Host-side (non-GL) effects a controller method can request. -/
inductive HostEffect where
  | mapOnMove
  | mapOnZoom
  | mapOffMove
  | mapOffZoom
  | addSource
  | removeSource
  | sourceOnData
  | sourceOffData
  | sourceCacheUpdate
  | markSourceUsed
  | observeContainer
  | observerDisconnect
  | triggerRepaint
  | preRenderCallbackInvoked (tiles : List Tile)
deriving DecidableEq, Repr

/-- A JavaScript runtime error (reading a member of `null`). -/
inductive JsError where
  | nullDeref
deriving DecidableEq, Repr

/-- The `ComparisonLayer` controller state. References held as
`Option` (`none` = the JS field is `null`); the source cache is
modelled by the visible-tile list it would resolve; the three
callback slots record presence of the default `setupLayer` / `render`
hooks and of the optional pre-render hook. -/
structure ComparisonLayer where
  map : Option Unit
  gl : Option Unit
  tileSource : Option Unit
  sourceCache : Option (List Tile)
  program : Option ComparisonLayerProgram
  data : ComparisonLayerData
  mapWidth : ℚ
  mapHeight : ℚ
  observer : Bool
  hasOnAddCallback : Bool
  hasRenderCallback : Bool
  hasPreRenderCallback : Bool
deriving DecidableEq, Repr

/-- The constructor: a detached controller holding no references or
GPU resources; the setup and render callbacks default to the standard
hooks (present), the pre-render hook is optional. -/
def ComparisonLayer.new (data : ComparisonLayerData)
    (hasPreRenderCallback : Bool) : ComparisonLayer :=
  { map := none, gl := none, tileSource := none, sourceCache := none,
    program := none, data := data, mapWidth := 0, mapHeight := 0,
    observer := false, hasOnAddCallback := true,
    hasRenderCallback := true,
    hasPreRenderCallback := hasPreRenderCallback }

/-- Result of a controller method: next state, host effects, GL trace. -/
structure StepResult where
  state : ComparisonLayer
  effects : List HostEffect
  glTrace : List GLCall
deriving DecidableEq, Repr

/-- Result of `onAdd`: as `StepResult` plus the error thrown by the
setup hook, if any (a thrown setup error aborts `onAdd` before the
container measurement and the resize observer). -/
structure AttachResult where
  state : ComparisonLayer
  effects : List HostEffect
  glTrace : List GLCall
  thrown : Option String
deriving DecidableEq, Repr

/-- `ComparisonLayer.onAdd`: store map/gl references, register move
and zoom listeners, add the source, subscribe to its data events,
grab the source cache (modelled by `cache`), mark the source used,
run the setup callback, then measure the container (`rectW × rectH`)
and start the resize observer. -/
def ComparisonLayer.onAdd (s : ComparisonLayer) (env : GLEnv)
    (cache : List Tile) (rectW rectH : ℚ) : AttachResult :=
  let effs : List HostEffect :=
    [HostEffect.mapOnMove, HostEffect.mapOnZoom, HostEffect.addSource,
     HostEffect.sourceOnData, HostEffect.markSourceUsed]
  let s1 : ComparisonLayer :=
    { s with map := some (), gl := some (), tileSource := some (),
             sourceCache := some cache }
  if s.hasOnAddCallback then
    match setupLayer env s.data with
    | (trace, Except.error e) =>
      { state := s1, effects := effs, glTrace := trace, thrown := some e }
    | (trace, Except.ok p) =>
      { state :=
          { s1 with program := some p, mapWidth := rectW,
                    mapHeight := rectH, observer := true },
        effects := effs ++ [HostEffect.observeContainer],
        glTrace := trace, thrown := none }
  else
    { state :=
        { s1 with mapWidth := rectW, mapHeight := rectH, observer := true },
      effects := effs ++ [HostEffect.observeContainer],
      glTrace := [], thrown := none }

/-- `updateTiles`: `this.sourceCache.update(this.map.painter.transform)`
— dereferences the source cache (then the map) and requests a
visible-tile recomputation. -/
def ComparisonLayer.updateTiles (s : ComparisonLayer) :
    Except JsError (List HostEffect) :=
  match s.sourceCache with
  | none => Except.error JsError.nullDeref
  | some _ =>
    match s.map with
    | none => Except.error JsError.nullDeref
    | some _ => Except.ok [HostEffect.sourceCacheUpdate]

/-- The `move` handler: refreshes tiles. -/
def ComparisonLayer.move (s : ComparisonLayer) :
    Except JsError (List HostEffect) :=
  ComparisonLayer.updateTiles s

/-- The `zoom` handler: an empty body. -/
def ComparisonLayer.zoom (_ : ComparisonLayer) :
    Except JsError (List HostEffect) :=
  Except.ok []

/-- The source `data` handler: refreshes tiles only for `content`
events. -/
def ComparisonLayer.onData (s : ComparisonLayer)
    (sourceDataType : String) : Except JsError (List HostEffect) :=
  if sourceDataType = "content" then ComparisonLayer.updateTiles s
  else Except.ok []

/-- The resize-observer handler: re-measure the container and request
a repaint (via the optional-chained map reference). -/
def ComparisonLayer.onResize (s : ComparisonLayer) (rectW rectH : ℚ) :
    StepResult :=
  { state := { s with mapWidth := rectW, mapHeight := rectH },
    effects :=
      match s.map with
      | some _ => [HostEffect.triggerRepaint]
      | none => [],
    glTrace := [] }

/-- `updateData`: replace the stored data wholesale and request a
repaint via the optional-chained map reference. -/
def ComparisonLayer.updateData (s : ComparisonLayer)
    (data : ComparisonLayerData) : StepResult :=
  { state := { s with data := data },
    effects :=
      match s.map with
      | some _ => [HostEffect.triggerRepaint]
      | none => [],
    glTrace := [] }

/-- `prerender`: when a pre-render callback exists, resolve the
visible tiles through the source cache (unguarded dereference) and
invoke the callback; otherwise do nothing. -/
def ComparisonLayer.prerender (s : ComparisonLayer) (matrix : List ℚ) :
    Except JsError (List HostEffect) :=
  if s.hasPreRenderCallback then
    match s.sourceCache with
    | none => Except.error JsError.nullDeref
    | some tiles => Except.ok [HostEffect.preRenderCallbackInvoked tiles]
  else
    Except.ok []

/-- The controller's `render` method: guarded by
`this.renderCallback && this.program`; when both are present, resolve
the visible tiles and run the default render hook with the stored
data and viewport dimensions. -/
def ComparisonLayer.render (s : ComparisonLayer) (matrix : List ℚ)
    (dpr : ℚ) : Except JsError (List GLCall) :=
  if s.hasRenderCallback then
    match s.program with
    | none => Except.ok []
    | some p =>
      match s.sourceCache with
      | none => Except.error JsError.nullDeref
      | some tiles =>
        Except.ok (renderHook matrix tiles p s.data s.mapWidth s.mapHeight dpr)
  else
    Except.ok []

/-- `onRemove`: guarded teardown — unregister map listeners and the
source data listener, remove the source when still registered
(`stillRegistered` models `map.getSource(sourceId)`), disconnect the
observer, delete the vertex buffer and the program while the context
reference is live, then null every reference. Every dereference is
guarded, so the method never throws. -/
def ComparisonLayer.onRemove (s : ComparisonLayer)
    (stillRegistered : Bool) : StepResult :=
  let effs1 : List HostEffect :=
    match s.map with
    | some _ =>
      [HostEffect.mapOffMove, HostEffect.mapOffZoom] ++
      (match s.tileSource with
       | some _ => [HostEffect.sourceOffData]
       | none => []) ++
      (if stillRegistered then [HostEffect.removeSource] else [])
    | none => []
  let effs2 : List HostEffect :=
    if s.observer then [HostEffect.observerDisconnect] else []
  let glTrace : List GLCall :=
    match s.gl, s.program with
    | some _, some p =>
      (match p.vertexBuffer with
       | some _ => [GLCall.deleteBuffer]
       | none => []) ++ [GLCall.deleteProgram]
    | _, _ => []
  { state :=
      { s with map := none, gl := none, tileSource := none,
               sourceCache := none, program := none, observer := false },
    effects := effs1 ++ effs2, glTrace := glTrace }

/-- Values written to the `uOffsetX` uniform in a trace, in order. -/
def offsetXWrites (t : List GLCall) : List ℚ :=
  t.filterMap fun c =>
    match c with
    | GLCall.uniform1fOffsetX v => some v
    | _ => none

/-- Values written to the `uOffsetY` uniform in a trace, in order. -/
def offsetYWrites (t : List GLCall) : List ℚ :=
  t.filterMap fun c =>
    match c with
    | GLCall.uniform1fOffsetY v => some v
    | _ => none

/-- Draw calls issued in a trace (mode, first vertex, vertex count). -/
def drawCalls (t : List GLCall) : List (DrawMode × ℕ × ℕ) :=
  t.filterMap fun c =>
    match c with
    | GLCall.drawArrays m f k => some (m, f, k)
    | _ => none

/-- Number of occurrences of one call in a trace. -/
def callCount (c : GLCall) : List GLCall → ℕ
  | [] => 0
  | d :: t => (if d = c then 1 else 0) + callCount c t

/-- A concrete all-success GL environment, for witnesses and
counterexamples. -/
def envOk : GLEnv :=
  { createVertexShaderOk := true, vertexCompileOk := true,
    vertexInfoLog := "", createFragmentShaderOk := true,
    fragmentCompileOk := true, fragmentInfoLog := "",
    createProgramOk := true, linkOk := true, programInfoLog := "",
    aPosLoc := 0, uMatrixLoc := some 0, uTextureLoc := some 1,
    uOffsetXLoc := some 2, uOffsetYLoc := some 3, uDprLoc := some 4,
    bufferHandle := some 1, dpr := 1 }

/-- A concrete offset-data record. -/
def dataHalf : ComparisonLayerData := { offsetX := 1/2, offsetY := 1/4 }

/-- A concrete tile list: one loaded tile, one still in flight. -/
def tilesEx : List Tile :=
  [{ texture := some { texture := 7 }, tileID := { projMatrix := [1] } },
   { texture := none, tileID := { projMatrix := [2] } }]

/-- A concrete program handle, as produced by `setupLayer` on `envOk`. -/
def progEx : ComparisonLayerProgram :=
  { aPos := 0, uMatrix := some 0, uTexture := some 1, uOffsetX := some 2,
    uOffsetY := some 3, uDevicePixelRatio := some 4, vertexBuffer := some 1 }

/-- A concrete attached controller state: references live, program
present, viewport 800×400, visible tiles `tilesEx`. -/
def layerEx : ComparisonLayer :=
  { ComparisonLayer.new dataHalf false with
    map := some (), gl := some (), tileSource := some (),
    sourceCache := some tilesEx, program := some progEx,
    mapWidth := 800, mapHeight := 400, observer := true }

/-- C1: with the per-frame uniform values `uOffsetX = offsetX * width`
and `uOffsetY = offsetY * height` (as set by the render hook), a
fragment at canvas position `(x, y)` is visible iff
`x / dpr ≤ offsetX * width` and `y / dpr ≤ offsetY * height`, and for
nonnegative viewport dimensions the visible set is monotone
non-decreasing in each offset. -/
theorem c1_fragment_visibility_iff_and_offset_monotone
    (offX offY offX' offY' w h x y dpr : ℚ) (color : RGBA)
    (hX0 : 0 ≤ offX) (hX1 : offX ≤ 1)
    (hY0 : 0 ≤ offY) (hY1 : offY ≤ 1)
    (hX'1 : offX' ≤ 1) (hY'1 : offY' ≤ 1)
    (hw : 0 ≤ w) (hh : 0 ≤ h)
    (hmx : offX ≤ offX') (hmy : offY ≤ offY') :
    ((vertexVaryingOffsets (offX * w) (offY * h)).1 = offX * w ∧
     (vertexVaryingOffsets (offX * w) (offY * h)).2 = offY * h) ∧
    (fragmentVisible dpr (offX * w) (offY * h) x y color = true ↔
      x / dpr ≤ offX * w ∧ y / dpr ≤ offY * h) ∧
    (fragmentVisible dpr (offX * w) (offY * h) x y color = true →
      fragmentVisible dpr (offX' * w) (offY * h) x y color = true) ∧
    (fragmentVisible dpr (offX * w) (offY * h) x y color = true →
      fragmentVisible dpr (offX * w) (offY' * h) x y color = true) := by
  have key : ∀ X Y : ℚ,
      fragmentVisible dpr X Y x y color = true ↔ x / dpr ≤ X ∧ y / dpr ≤ Y := by
    intro X Y
    simp only [fragmentVisible, fragmentShaderMain]
    by_cases hc : x / dpr > X ∨ y / dpr > Y
    · rw [if_pos hc]
      constructor
      · intro hfalse; simp at hfalse
      · intro hcon
        rcases hc with hc | hc
        · exact absurd hcon.1 (not_le.mpr hc)
        · exact absurd hcon.2 (not_le.mpr hc)
    · rw [if_neg hc]
      push_neg at hc
      exact iff_of_true rfl ⟨hc.1, hc.2⟩
  refine ⟨⟨rfl, rfl⟩, key _ _, ?_, ?_⟩
  · intro hvis
    rcases (key _ _).mp hvis with ⟨h1, h2⟩
    exact (key _ _).mpr ⟨le_trans h1 (mul_le_mul_of_nonneg_right hmx hw), h2⟩
  · intro hvis
    rcases (key _ _).mp hvis with ⟨h1, h2⟩
    exact (key _ _).mpr ⟨h1, le_trans h2 (mul_le_mul_of_nonneg_right hmy hh)⟩

/-- Witness for C1 at a concrete instance: offsets (1/2, 1/4) growing
to (1, 1/2), viewport 800×400, fragment at (100, 50), dpr 1. -/
theorem c1_fragment_visibility_iff_and_offset_monotone_witness :
    ((vertexVaryingOffsets ((1:ℚ)/2 * 800) ((1:ℚ)/4 * 400)).1 = (1:ℚ)/2 * 800 ∧
     (vertexVaryingOffsets ((1:ℚ)/2 * 800) ((1:ℚ)/4 * 400)).2 = (1:ℚ)/4 * 400) ∧
    (fragmentVisible 1 ((1:ℚ)/2 * 800) ((1:ℚ)/4 * 400) 100 50 ⟨0, 0, 0, 1⟩ = true ↔
      (100:ℚ) / 1 ≤ (1:ℚ)/2 * 800 ∧ (50:ℚ) / 1 ≤ (1:ℚ)/4 * 400) ∧
    (fragmentVisible 1 ((1:ℚ)/2 * 800) ((1:ℚ)/4 * 400) 100 50 ⟨0, 0, 0, 1⟩ = true →
      fragmentVisible 1 ((1:ℚ) * 800) ((1:ℚ)/4 * 400) 100 50 ⟨0, 0, 0, 1⟩ = true) ∧
    (fragmentVisible 1 ((1:ℚ)/2 * 800) ((1:ℚ)/4 * 400) 100 50 ⟨0, 0, 0, 1⟩ = true →
      fragmentVisible 1 ((1:ℚ)/2 * 800) ((1:ℚ)/2 * 400) 100 50 ⟨0, 0, 0, 1⟩ = true) :=
  c1_fragment_visibility_iff_and_offset_monotone ((1:ℚ)/2) ((1:ℚ)/4) 1 ((1:ℚ)/2)
    800 400 100 50 1 ⟨0, 0, 0, 1⟩
    (by norm_num) (by norm_num) (by norm_num) (by norm_num)
    (by norm_num) (by norm_num) (by norm_num) (by norm_num)
    (by norm_num) (by norm_num)

/-- The per-tile body of the render hook writes no offset uniforms. -/
theorem offsetXWrites_renderTile (tile : Tile) :
    offsetXWrites (renderTile tile) = [] := by
  obtain ⟨tex, tid⟩ := tile
  cases tex <;> rfl

/-- The per-tile body of the render hook writes no offset uniforms. -/
theorem offsetYWrites_renderTile (tile : Tile) :
    offsetYWrites (renderTile tile) = [] := by
  obtain ⟨tex, tid⟩ := tile
  cases tex <;> rfl

/-- No offset-X uniform write occurs anywhere in the tile loop. -/
theorem offsetXWrites_flatMap (tiles : List Tile) :
    offsetXWrites (tiles.flatMap renderTile) = [] := by
  induction tiles with
  | nil => rfl
  | cons t ts ih =>
    simp only [List.flatMap_cons, offsetXWrites, List.filterMap_append]
    simp only [offsetXWrites] at ih
    rw [ih, List.append_nil]
    have := offsetXWrites_renderTile t
    simpa [offsetXWrites] using this

/-- No offset-Y uniform write occurs anywhere in the tile loop. -/
theorem offsetYWrites_flatMap (tiles : List Tile) :
    offsetYWrites (tiles.flatMap renderTile) = [] := by
  induction tiles with
  | nil => rfl
  | cons t ts ih =>
    simp only [List.flatMap_cons, offsetYWrites, List.filterMap_append]
    simp only [offsetYWrites] at ih
    rw [ih, List.append_nil]
    have := offsetYWrites_renderTile t
    simpa [offsetYWrites] using this

/-- A tile without a texture contributes no draw call. -/
theorem drawCalls_renderTile_none (tile : Tile) (h : tile.texture = none) :
    drawCalls (renderTile tile) = [] := by
  obtain ⟨tex, tid⟩ := tile
  cases tex with
  | none => rfl
  | some t => simp at h

/-- A tile with a texture contributes exactly one 6-vertex triangle
draw. -/
theorem drawCalls_renderTile_some (tile : Tile)
    (h : tile.texture.isSome = true) :
    drawCalls (renderTile tile) = [(DrawMode.triangles, 0, 6)] := by
  obtain ⟨tex, tid⟩ := tile
  cases tex with
  | none => simp at h
  | some t => rfl

/-- The tile loop issues one 6-vertex triangle draw per textured tile. -/
theorem drawCalls_flatMap (tiles : List Tile) :
    drawCalls (tiles.flatMap renderTile) =
      List.replicate (tiles.countP fun t => t.texture.isSome)
        (DrawMode.triangles, 0, 6) := by
  induction tiles with
  | nil => rfl
  | cons t ts ih =>
    simp only [List.flatMap_cons, drawCalls, List.filterMap_append,
      List.countP_cons]
    simp only [drawCalls] at ih
    rw [ih]
    by_cases h : t.texture.isSome = true
    · have h1 := drawCalls_renderTile_some t h
      simp only [drawCalls] at h1
      rw [h1, h]
      simp [List.replicate_succ]
    · have hn : t.texture = none := by
        cases htex : t.texture with
        | none => rfl
        | some x => rw [htex] at h; simp at h
      have h1 := drawCalls_renderTile_none t hn
      simp only [drawCalls] at h1
      rw [h1]
      simp [h]

/-- C2: every invocation of the default render hook emits exactly one
X-threshold write with value `offsetX * width` and one Y-threshold
write with value `offsetY * height`, placed in the once-per-frame
header before the tile loop (the tile loop writes neither uniform);
in particular, for offsets (0.5, 0.25) and viewport 800×400 the
written thresholds are 400 and 100. -/
theorem c2_render_hook_viewport_pixel_conversion
    (matrix : List ℚ) (tiles : List Tile) (p : ComparisonLayerProgram)
    (data : ComparisonLayerData) (w h dpr : ℚ) :
    render matrix tiles p data w h dpr =
      [GLCall.useProgram,
       GLCall.uniform1fOffsetX (data.offsetX * w),
       GLCall.uniform1fOffsetY (data.offsetY * h),
       GLCall.uniform1fDpr dpr] ++ tiles.flatMap renderTile ∧
    offsetXWrites (render matrix tiles p data w h dpr) =
      [data.offsetX * w] ∧
    offsetYWrites (render matrix tiles p data w h dpr) =
      [data.offsetY * h] ∧
    offsetXWrites (tiles.flatMap renderTile) = [] ∧
    offsetYWrites (tiles.flatMap renderTile) = [] ∧
    offsetXWrites
      (render matrix tiles p { offsetX := 1/2, offsetY := 1/4 } 800 400 dpr) =
      [400] ∧
    offsetYWrites
      (render matrix tiles p { offsetX := 1/2, offsetY := 1/4 } 800 400 dpr) =
      [100] := by
  have hx := offsetXWrites_flatMap tiles
  have hy := offsetYWrites_flatMap tiles
  refine ⟨rfl, ?_, ?_, hx, hy, ?_, ?_⟩
  · simp only [render, offsetXWrites, List.filterMap_append] at *
    rw [hx]
    rfl
  · simp only [render, offsetYWrites, List.filterMap_append] at *
    rw [hy]
    rfl
  · simp only [render, offsetXWrites, List.filterMap_append] at *
    rw [hx, List.append_nil]
    norm_num [List.filterMap_cons]
  · simp only [render, offsetYWrites, List.filterMap_append] at *
    rw [hy, List.append_nil]
    norm_num [List.filterMap_cons]

/-- C3: the controller's `render` method is a silent no-op whenever no
program handle exists; with a program, a render callback and a
resolved visible-tile list it invokes the default hook, which issues
zero draw calls for texture-less tiles and exactly one 6-vertex
triangle draw per textured tile (an empty list yields no draws). -/
theorem c3_render_noop_and_draw_accounting :
    (∀ (s : ComparisonLayer) (matrix : List ℚ) (dpr : ℚ),
       s.program = none →
       ComparisonLayer.render s matrix dpr = Except.ok []) ∧
    (∀ (s : ComparisonLayer) (matrix : List ℚ) (dpr : ℚ)
       (p : ComparisonLayerProgram) (tiles : List Tile),
       s.hasRenderCallback = true → s.program = some p →
       s.sourceCache = some tiles →
       ComparisonLayer.render s matrix dpr =
         Except.ok
           (renderHook matrix tiles p s.data s.mapWidth s.mapHeight dpr) ∧
       drawCalls
           (renderHook matrix tiles p s.data s.mapWidth s.mapHeight dpr) =
         List.replicate (tiles.countP fun t => t.texture.isSome)
           (DrawMode.triangles, 0, 6)) ∧
    (∀ tile : Tile, tile.texture = none →
       drawCalls (renderTile tile) = []) ∧
    (∀ tile : Tile, tile.texture.isSome = true →
       drawCalls (renderTile tile) = [(DrawMode.triangles, 0, 6)]) ∧
    (∀ (matrix : List ℚ) (p : ComparisonLayerProgram)
       (data : ComparisonLayerData) (w h dpr : ℚ),
       drawCalls (render matrix [] p data w h dpr) = []) := by
  refine ⟨?_, ?_, drawCalls_renderTile_none, drawCalls_renderTile_some, ?_⟩
  · intro s matrix dpr hnone
    unfold ComparisonLayer.render
    rw [hnone]
    by_cases hcb : s.hasRenderCallback <;> simp [hcb]
  · intro s matrix dpr p tiles hcb hprog hcache
    constructor
    · unfold ComparisonLayer.render
      rw [hcb, hprog, hcache]
      simp
    · have hd := drawCalls_flatMap tiles
      simp only [renderHook, render, drawCalls, List.filterMap_append] at *
      rw [hd]
      rfl
  · intro matrix p data w h dpr
    rfl

/-- Witness for C3 at concrete states: `layerEx` with its program
removed renders as a no-op; `layerEx` itself (program present, tiles
`tilesEx` of which one is textured) issues exactly one 6-vertex draw;
the texture-less and textured tiles of `tilesEx` contribute zero and
one draws respectively. -/
theorem c3_render_noop_and_draw_accounting_witness :
    (ComparisonLayer.render { layerEx with program := none } [] 1 =
       Except.ok []) ∧
    (ComparisonLayer.render layerEx [] 1 =
       Except.ok (renderHook [] tilesEx progEx layerEx.data
         layerEx.mapWidth layerEx.mapHeight 1) ∧
     drawCalls (renderHook [] tilesEx progEx layerEx.data
         layerEx.mapWidth layerEx.mapHeight 1) =
       List.replicate (tilesEx.countP fun t => t.texture.isSome)
         (DrawMode.triangles, 0, 6)) ∧
    (drawCalls (renderTile ⟨none, ⟨[2]⟩⟩) = []) ∧
    (drawCalls (renderTile ⟨some ⟨7⟩, ⟨[1]⟩⟩) =
      [(DrawMode.triangles, 0, 6)]) ∧
    (drawCalls (render [] [] progEx dataHalf 800 400 1) = []) :=
  ⟨c3_render_noop_and_draw_accounting.1 _ [] 1 rfl,
   c3_render_noop_and_draw_accounting.2.1 layerEx [] 1 progEx tilesEx
     rfl rfl rfl,
   c3_render_noop_and_draw_accounting.2.2.1 _ rfl,
   c3_render_noop_and_draw_accounting.2.2.2.1 _ rfl,
   c3_render_noop_and_draw_accounting.2.2.2.2 [] progEx dataHalf 800 400 1⟩

/-- C4: when fragment-shader compilation fails in `setupLayer` (both
creations and the vertex compile having succeeded), both shaders are
released, no program object is ever created, the raised error names
the fragment stage and carries the compiler diagnostic, and no GPU
resource survives (every create on the trace is matched by a delete). -/
theorem c4_fragment_compile_failure_cleanup (env : GLEnv)
    (data : ComparisonLayerData)
    (h1 : env.createVertexShaderOk = true)
    (h2 : env.vertexCompileOk = true)
    (h3 : env.createFragmentShaderOk = true)
    (h4 : env.fragmentCompileOk = false) :
    (setupLayer env data).2 =
      Except.error
        ("[shader] fragment shader compilation failed: " ++
         env.fragmentInfoLog) ∧
    callCount (GLCall.deleteShader ShaderKind.vertex)
      (setupLayer env data).1 = 1 ∧
    callCount (GLCall.deleteShader ShaderKind.fragment)
      (setupLayer env data).1 = 1 ∧
    callCount GLCall.createProgram (setupLayer env data).1 = 0 ∧
    callCount (GLCall.createShader ShaderKind.vertex)
      (setupLayer env data).1 = 1 ∧
    callCount (GLCall.createShader ShaderKind.fragment)
      (setupLayer env data).1 = 1 ∧
    callCount GLCall.createBuffer (setupLayer env data).1 = 0 := by
  have htr : (setupLayer env data).1 =
      [GLCall.createShader ShaderKind.vertex,
       GLCall.shaderSource ShaderKind.vertex,
       GLCall.compileShader ShaderKind.vertex,
       GLCall.createShader ShaderKind.fragment,
       GLCall.shaderSource ShaderKind.fragment,
       GLCall.compileShader ShaderKind.fragment,
       GLCall.deleteShader ShaderKind.vertex,
       GLCall.deleteShader ShaderKind.fragment] := by
    simp [setupLayer, h1, h2, h3, h4]
  have hre : (setupLayer env data).2 =
      Except.error
        ("[shader] fragment shader compilation failed: " ++
         env.fragmentInfoLog) := by
    simp [setupLayer, h1, h2, h3, h4]
  rw [htr, hre]
  refine ⟨rfl, ?_, ?_, ?_, ?_, ?_, ?_⟩ <;> decide

/-- Witness for C4 on a concrete environment whose fragment compile
fails with diagnostic `bad frag`. -/
theorem c4_fragment_compile_failure_cleanup_witness :
    ((setupLayer
        { envOk with fragmentCompileOk := false,
                     fragmentInfoLog := "bad frag" } dataHalf).2 =
      Except.error
        ("[shader] fragment shader compilation failed: " ++
         ({ envOk with fragmentCompileOk := false,
                       fragmentInfoLog := "bad frag" } : GLEnv).fragmentInfoLog) ∧
     callCount (GLCall.deleteShader ShaderKind.vertex)
       (setupLayer
         { envOk with fragmentCompileOk := false,
                      fragmentInfoLog := "bad frag" } dataHalf).1 = 1 ∧
     callCount (GLCall.deleteShader ShaderKind.fragment)
       (setupLayer
         { envOk with fragmentCompileOk := false,
                      fragmentInfoLog := "bad frag" } dataHalf).1 = 1 ∧
     callCount GLCall.createProgram
       (setupLayer
         { envOk with fragmentCompileOk := false,
                      fragmentInfoLog := "bad frag" } dataHalf).1 = 0 ∧
     callCount (GLCall.createShader ShaderKind.vertex)
       (setupLayer
         { envOk with fragmentCompileOk := false,
                      fragmentInfoLog := "bad frag" } dataHalf).1 = 1 ∧
     callCount (GLCall.createShader ShaderKind.fragment)
       (setupLayer
         { envOk with fragmentCompileOk := false,
                      fragmentInfoLog := "bad frag" } dataHalf).1 = 1 ∧
     callCount GLCall.createBuffer
       (setupLayer
         { envOk with fragmentCompileOk := false,
                      fragmentInfoLog := "bad frag" } dataHalf).1 = 0) :=
  c4_fragment_compile_failure_cleanup
    { envOk with fragmentCompileOk := false, fragmentInfoLog := "bad frag" }
    dataHalf rfl rfl rfl rfl

/-- Trace of `setupLayer` when fragment-shader creation fails. -/
theorem setupLayer_trace_fragmentCreateFail (env : GLEnv)
    (data : ComparisonLayerData)
    (h1 : env.createVertexShaderOk = true)
    (h2 : env.vertexCompileOk = true)
    (h3 : env.createFragmentShaderOk = false) :
    (setupLayer env data).1 =
      [GLCall.createShader ShaderKind.vertex,
       GLCall.shaderSource ShaderKind.vertex,
       GLCall.compileShader ShaderKind.vertex,
       GLCall.createShader ShaderKind.fragment,
       GLCall.deleteShader ShaderKind.vertex] := by
  simp [setupLayer, h1, h2, h3]

/-- Trace of `setupLayer` when program creation fails: the two
compiled shaders are not deleted on this path. -/
theorem setupLayer_trace_programCreateFail (env : GLEnv)
    (data : ComparisonLayerData)
    (h1 : env.createVertexShaderOk = true)
    (h2 : env.vertexCompileOk = true)
    (h3 : env.createFragmentShaderOk = true)
    (h4 : env.fragmentCompileOk = true)
    (h5 : env.createProgramOk = false) :
    (setupLayer env data).1 =
      [GLCall.createShader ShaderKind.vertex,
       GLCall.shaderSource ShaderKind.vertex,
       GLCall.compileShader ShaderKind.vertex,
       GLCall.createShader ShaderKind.fragment,
       GLCall.shaderSource ShaderKind.fragment,
       GLCall.compileShader ShaderKind.fragment,
       GLCall.createProgram] := by
  simp [setupLayer, h1, h2, h3, h4, h5]

/-- Trace of `setupLayer` when linking fails: program and both
shaders are deleted. -/
theorem setupLayer_trace_linkFail (env : GLEnv)
    (data : ComparisonLayerData)
    (h1 : env.createVertexShaderOk = true)
    (h2 : env.vertexCompileOk = true)
    (h3 : env.createFragmentShaderOk = true)
    (h4 : env.fragmentCompileOk = true)
    (h5 : env.createProgramOk = true)
    (h6 : env.linkOk = false) :
    (setupLayer env data).1 =
      [GLCall.createShader ShaderKind.vertex,
       GLCall.shaderSource ShaderKind.vertex,
       GLCall.compileShader ShaderKind.vertex,
       GLCall.createShader ShaderKind.fragment,
       GLCall.shaderSource ShaderKind.fragment,
       GLCall.compileShader ShaderKind.fragment,
       GLCall.createProgram,
       GLCall.attachShader ShaderKind.vertex,
       GLCall.attachShader ShaderKind.fragment,
       GLCall.linkProgram,
       GLCall.deleteProgram,
       GLCall.deleteShader ShaderKind.vertex,
       GLCall.deleteShader ShaderKind.fragment] := by
  simp [setupLayer, h1, h2, h3, h4, h5, h6]

/-- Full result of `setupLayer` on the success path. -/
theorem setupLayer_success (env : GLEnv) (data : ComparisonLayerData)
    (h1 : env.createVertexShaderOk = true)
    (h2 : env.vertexCompileOk = true)
    (h3 : env.createFragmentShaderOk = true)
    (h4 : env.fragmentCompileOk = true)
    (h5 : env.createProgramOk = true)
    (h6 : env.linkOk = true) :
    setupLayer env data =
      ([GLCall.createShader ShaderKind.vertex,
        GLCall.shaderSource ShaderKind.vertex,
        GLCall.compileShader ShaderKind.vertex,
        GLCall.createShader ShaderKind.fragment,
        GLCall.shaderSource ShaderKind.fragment,
        GLCall.compileShader ShaderKind.fragment,
        GLCall.createProgram,
        GLCall.attachShader ShaderKind.vertex,
        GLCall.attachShader ShaderKind.fragment,
        GLCall.linkProgram,
        GLCall.validateProgram,
        GLCall.getAttribLocation "aPos",
        GLCall.getUniformLocation "uMatrix",
        GLCall.getUniformLocation "uTexture",
        GLCall.getUniformLocation "uOffsetX",
        GLCall.getUniformLocation "uOffsetY",
        GLCall.getUniformLocation "uDevicePixelRatio",
        GLCall.createBuffer, GLCall.bindBuffer,
        GLCall.bufferData vertexArray,
        GLCall.useProgram,
        GLCall.uniform1fOffsetX data.offsetX,
        GLCall.uniform1fOffsetY data.offsetY,
        GLCall.uniform1fDpr env.dpr],
       Except.ok
         { aPos := env.aPosLoc, uMatrix := env.uMatrixLoc,
           uTexture := env.uTextureLoc, uOffsetX := env.uOffsetXLoc,
           uOffsetY := env.uOffsetYLoc, uDevicePixelRatio := env.uDprLoc,
           vertexBuffer := env.bufferHandle }) := by
  simp [setupLayer, h1, h2, h3, h4, h5, h6]

/-- `onAdd` with a succeeding setup hook: the resulting state. -/
theorem onAdd_success_state (s : ComparisonLayer) (env : GLEnv)
    (cache : List Tile) (rectW rectH : ℚ)
    (hcb : s.hasOnAddCallback = true)
    (h1 : env.createVertexShaderOk = true)
    (h2 : env.vertexCompileOk = true)
    (h3 : env.createFragmentShaderOk = true)
    (h4 : env.fragmentCompileOk = true)
    (h5 : env.createProgramOk = true)
    (h6 : env.linkOk = true) :
    (ComparisonLayer.onAdd s env cache rectW rectH).state =
      { s with map := some (), gl := some (), tileSource := some (),
               sourceCache := some cache,
               program := some
                 { aPos := env.aPosLoc, uMatrix := env.uMatrixLoc,
                   uTexture := env.uTextureLoc, uOffsetX := env.uOffsetXLoc,
                   uOffsetY := env.uOffsetYLoc,
                   uDevicePixelRatio := env.uDprLoc,
                   vertexBuffer := env.bufferHandle },
               mapWidth := rectW, mapHeight := rectH, observer := true } := by
  rw [ComparisonLayer.onAdd, if_pos hcb,
    setupLayer_success env s.data h1 h2 h3 h4 h5 h6]

/-- Trace of `setupLayer` when vertex-shader compilation fails. -/
theorem setupLayer_trace_vertexCompileFail (env : GLEnv)
    (data : ComparisonLayerData)
    (h1 : env.createVertexShaderOk = true)
    (h2 : env.vertexCompileOk = false) :
    (setupLayer env data).1 =
      [GLCall.createShader ShaderKind.vertex,
       GLCall.shaderSource ShaderKind.vertex,
       GLCall.compileShader ShaderKind.vertex,
       GLCall.deleteShader ShaderKind.vertex] := by
  simp [setupLayer, h1, h2]

/-- Trace of `setupLayer` when fragment-shader compilation fails. -/
theorem setupLayer_trace_fragmentCompileFail (env : GLEnv)
    (data : ComparisonLayerData)
    (h1 : env.createVertexShaderOk = true)
    (h2 : env.vertexCompileOk = true)
    (h3 : env.createFragmentShaderOk = true)
    (h4 : env.fragmentCompileOk = false) :
    (setupLayer env data).1 =
      [GLCall.createShader ShaderKind.vertex,
       GLCall.shaderSource ShaderKind.vertex,
       GLCall.compileShader ShaderKind.vertex,
       GLCall.createShader ShaderKind.fragment,
       GLCall.shaderSource ShaderKind.fragment,
       GLCall.compileShader ShaderKind.fragment,
       GLCall.deleteShader ShaderKind.vertex,
       GLCall.deleteShader ShaderKind.fragment] := by
  simp [setupLayer, h1, h2, h3, h4]

/-- C5 counterexample: on the all-success environment `envOk`, attach
(setup) followed by detach releases neither shader — the vertex
shader is created once, yet the combined setup-plus-detach GL trace
contains no vertex- or fragment-shader delete, refuting "the 2
shaders are released after linking regardless of link outcome";
moreover, on the program-creation-failure exit the two shaders
created before the failure are not released, refuting "on every
failing exit path, all GPU objects created before the failure are
released". -/
theorem c5_resource_symmetry_counterexample :
    (setupLayer envOk dataHalf).2 = Except.ok progEx ∧
    callCount (GLCall.createShader ShaderKind.vertex)
      ((setupLayer envOk dataHalf).1 ++
       (ComparisonLayer.onRemove
         (ComparisonLayer.onAdd (ComparisonLayer.new dataHalf false)
           envOk [] 800 400).state true).glTrace) = 1 ∧
    callCount (GLCall.deleteShader ShaderKind.vertex)
      ((setupLayer envOk dataHalf).1 ++
       (ComparisonLayer.onRemove
         (ComparisonLayer.onAdd (ComparisonLayer.new dataHalf false)
           envOk [] 800 400).state true).glTrace) = 0 ∧
    callCount (GLCall.deleteShader ShaderKind.fragment)
      ((setupLayer envOk dataHalf).1 ++
       (ComparisonLayer.onRemove
         (ComparisonLayer.onAdd (ComparisonLayer.new dataHalf false)
           envOk [] 800 400).state true).glTrace) = 0 ∧
    callCount (GLCall.createShader ShaderKind.vertex)
      (setupLayer { envOk with createProgramOk := false } dataHalf).1 = 1 ∧
    callCount (GLCall.createShader ShaderKind.fragment)
      (setupLayer { envOk with createProgramOk := false } dataHalf).1 = 1 ∧
    callCount (GLCall.deleteShader ShaderKind.vertex)
      (setupLayer { envOk with createProgramOk := false } dataHalf).1 = 0 ∧
    callCount (GLCall.deleteShader ShaderKind.fragment)
      (setupLayer { envOk with createProgramOk := false } dataHalf).1 = 0 := by
  refine ⟨rfl, ?_, ?_, ?_, ?_, ?_, ?_, ?_⟩ <;> decide

/-- C5 (amended): per-path resource accounting. On the
vertex-compile, fragment-create, fragment-compile and link failure
exits of attach every GPU object created before the failure is
released before the error is raised; on the program-creation-failure
exit the two compiled shaders are not released; on the success path
setup releases nothing — in particular the two shaders are never
released — while the program and the vertex buffer are each released
exactly once by the subsequent detach. -/
theorem c5_resource_symmetry_amended (env : GLEnv)
    (data : ComparisonLayerData) (b : ℕ) (pre stillReg : Bool)
    (cache : List Tile) (rectW rectH : ℚ) :
    (callCount (GLCall.createShader ShaderKind.vertex)
       (setupLayer { env with createVertexShaderOk := true,
                              vertexCompileOk := false } data).1 = 1 ∧
     callCount (GLCall.deleteShader ShaderKind.vertex)
       (setupLayer { env with createVertexShaderOk := true,
                              vertexCompileOk := false } data).1 = 1) ∧
    (callCount (GLCall.deleteShader ShaderKind.vertex)
       (setupLayer { env with createVertexShaderOk := true,
                              vertexCompileOk := true,
                              createFragmentShaderOk := false } data).1
       = 1) ∧
    (callCount (GLCall.deleteShader ShaderKind.vertex)
       (setupLayer { env with createVertexShaderOk := true,
                              vertexCompileOk := true,
                              createFragmentShaderOk := true,
                              fragmentCompileOk := false } data).1 = 1 ∧
     callCount (GLCall.deleteShader ShaderKind.fragment)
       (setupLayer { env with createVertexShaderOk := true,
                              vertexCompileOk := true,
                              createFragmentShaderOk := true,
                              fragmentCompileOk := false } data).1 = 1) ∧
    (callCount (GLCall.createShader ShaderKind.vertex)
       (setupLayer { env with createVertexShaderOk := true,
                              vertexCompileOk := true,
                              createFragmentShaderOk := true,
                              fragmentCompileOk := true,
                              createProgramOk := false } data).1 = 1 ∧
     callCount (GLCall.createShader ShaderKind.fragment)
       (setupLayer { env with createVertexShaderOk := true,
                              vertexCompileOk := true,
                              createFragmentShaderOk := true,
                              fragmentCompileOk := true,
                              createProgramOk := false } data).1 = 1 ∧
     callCount (GLCall.deleteShader ShaderKind.vertex)
       (setupLayer { env with createVertexShaderOk := true,
                              vertexCompileOk := true,
                              createFragmentShaderOk := true,
                              fragmentCompileOk := true,
                              createProgramOk := false } data).1 = 0 ∧
     callCount (GLCall.deleteShader ShaderKind.fragment)
       (setupLayer { env with createVertexShaderOk := true,
                              vertexCompileOk := true,
                              createFragmentShaderOk := true,
                              fragmentCompileOk := true,
                              createProgramOk := false } data).1 = 0) ∧
    (callCount GLCall.createProgram
       (setupLayer { env with createVertexShaderOk := true,
                              vertexCompileOk := true,
                              createFragmentShaderOk := true,
                              fragmentCompileOk := true,
                              createProgramOk := true,
                              linkOk := false } data).1 = 1 ∧
     callCount GLCall.deleteProgram
       (setupLayer { env with createVertexShaderOk := true,
                              vertexCompileOk := true,
                              createFragmentShaderOk := true,
                              fragmentCompileOk := true,
                              createProgramOk := true,
                              linkOk := false } data).1 = 1 ∧
     callCount (GLCall.deleteShader ShaderKind.vertex)
       (setupLayer { env with createVertexShaderOk := true,
                              vertexCompileOk := true,
                              createFragmentShaderOk := true,
                              fragmentCompileOk := true,
                              createProgramOk := true,
                              linkOk := false } data).1 = 1 ∧
     callCount (GLCall.deleteShader ShaderKind.fragment)
       (setupLayer { env with createVertexShaderOk := true,
                              vertexCompileOk := true,
                              createFragmentShaderOk := true,
                              fragmentCompileOk := true,
                              createProgramOk := true,
                              linkOk := false } data).1 = 1) ∧
    (callCount (GLCall.createShader ShaderKind.vertex)
       (setupLayer { env with createVertexShaderOk := true,
                              vertexCompileOk := true,
                              createFragmentShaderOk := true,
                              fragmentCompileOk := true,
                              createProgramOk := true,
                              linkOk := true,
                              bufferHandle := some b } data).1 = 1 ∧
     callCount (GLCall.createShader ShaderKind.fragment)
       (setupLayer { env with createVertexShaderOk := true,
                              vertexCompileOk := true,
                              createFragmentShaderOk := true,
                              fragmentCompileOk := true,
                              createProgramOk := true,
                              linkOk := true,
                              bufferHandle := some b } data).1 = 1 ∧
     callCount GLCall.createProgram
       (setupLayer { env with createVertexShaderOk := true,
                              vertexCompileOk := true,
                              createFragmentShaderOk := true,
                              fragmentCompileOk := true,
                              createProgramOk := true,
                              linkOk := true,
                              bufferHandle := some b } data).1 = 1 ∧
     callCount GLCall.createBuffer
       (setupLayer { env with createVertexShaderOk := true,
                              vertexCompileOk := true,
                              createFragmentShaderOk := true,
                              fragmentCompileOk := true,
                              createProgramOk := true,
                              linkOk := true,
                              bufferHandle := some b } data).1 = 1 ∧
     callCount (GLCall.deleteShader ShaderKind.vertex)
       (setupLayer { env with createVertexShaderOk := true,
                              vertexCompileOk := true,
                              createFragmentShaderOk := true,
                              fragmentCompileOk := true,
                              createProgramOk := true,
                              linkOk := true,
                              bufferHandle := some b } data).1 = 0 ∧
     callCount (GLCall.deleteShader ShaderKind.fragment)
       (setupLayer { env with createVertexShaderOk := true,
                              vertexCompileOk := true,
                              createFragmentShaderOk := true,
                              fragmentCompileOk := true,
                              createProgramOk := true,
                              linkOk := true,
                              bufferHandle := some b } data).1 = 0 ∧
     callCount GLCall.deleteProgram
       (setupLayer { env with createVertexShaderOk := true,
                              vertexCompileOk := true,
                              createFragmentShaderOk := true,
                              fragmentCompileOk := true,
                              createProgramOk := true,
                              linkOk := true,
                              bufferHandle := some b } data).1 = 0 ∧
     callCount GLCall.deleteBuffer
       (setupLayer { env with createVertexShaderOk := true,
                              vertexCompileOk := true,
                              createFragmentShaderOk := true,
                              fragmentCompileOk := true,
                              createProgramOk := true,
                              linkOk := true,
                              bufferHandle := some b } data).1 = 0) ∧
    (ComparisonLayer.onRemove
       (ComparisonLayer.onAdd (ComparisonLayer.new data pre)
         { env with createVertexShaderOk := true,
                    vertexCompileOk := true,
                    createFragmentShaderOk := true,
                    fragmentCompileOk := true,
                    createProgramOk := true,
                    linkOk := true,
                    bufferHandle := some b }
         cache rectW rectH).state stillReg).glTrace =
      [GLCall.deleteBuffer, GLCall.deleteProgram] := by
  refine ⟨⟨?_, ?_⟩, ?_, ⟨?_, ?_⟩, ⟨?_, ?_, ?_, ?_⟩, ⟨?_, ?_, ?_, ?_⟩,
    ⟨?_, ?_, ?_, ?_, ?_, ?_, ?_, ?_⟩, ?_⟩
  · rw [setupLayer_trace_vertexCompileFail _ data rfl rfl]; decide
  · rw [setupLayer_trace_vertexCompileFail _ data rfl rfl]; decide
  · rw [setupLayer_trace_fragmentCreateFail _ data rfl rfl rfl]; decide
  · rw [setupLayer_trace_fragmentCompileFail _ data rfl rfl rfl rfl]; decide
  · rw [setupLayer_trace_fragmentCompileFail _ data rfl rfl rfl rfl]; decide
  · rw [setupLayer_trace_programCreateFail _ data rfl rfl rfl rfl rfl]; decide
  · rw [setupLayer_trace_programCreateFail _ data rfl rfl rfl rfl rfl]; decide
  · rw [setupLayer_trace_programCreateFail _ data rfl rfl rfl rfl rfl]; decide
  · rw [setupLayer_trace_programCreateFail _ data rfl rfl rfl rfl rfl]; decide
  · rw [setupLayer_trace_linkFail _ data rfl rfl rfl rfl rfl rfl]; decide
  · rw [setupLayer_trace_linkFail _ data rfl rfl rfl rfl rfl rfl]; decide
  · rw [setupLayer_trace_linkFail _ data rfl rfl rfl rfl rfl rfl]; decide
  · rw [setupLayer_trace_linkFail _ data rfl rfl rfl rfl rfl rfl]; decide
  · rw [setupLayer_success _ data rfl rfl rfl rfl rfl rfl]; simp [callCount]
  · rw [setupLayer_success _ data rfl rfl rfl rfl rfl rfl]; simp [callCount]
  · rw [setupLayer_success _ data rfl rfl rfl rfl rfl rfl]; simp [callCount]
  · rw [setupLayer_success _ data rfl rfl rfl rfl rfl rfl]; simp [callCount]
  · rw [setupLayer_success _ data rfl rfl rfl rfl rfl rfl]; simp [callCount]
  · rw [setupLayer_success _ data rfl rfl rfl rfl rfl rfl]; simp [callCount]
  · rw [setupLayer_success _ data rfl rfl rfl rfl rfl rfl]; simp [callCount]
  · rw [setupLayer_success _ data rfl rfl rfl rfl rfl rfl]; simp [callCount]
  · rw [onAdd_success_state _ _ cache rectW rectH rfl rfl rfl rfl rfl rfl rfl]
    simp [ComparisonLayer.onRemove]

/-- C6: detach is idempotent and safe before attach. After any
`onRemove` all stored references (map, rendering context, tile
source, tile cache, program) are null and the observer is gone; a
second `onRemove` performs no host effect and no GL call and leaves
the state unchanged; `onRemove` on a freshly constructed (never
attached) controller performs no host effect and no GL call. The
method is modelled as a total function: every dereference in the
source is guarded, so no call can throw. -/
theorem c6_idempotent_detach (s : ComparisonLayer)
    (keep keep2 b : Bool) (d : ComparisonLayerData) (pre : Bool) :
    ((ComparisonLayer.onRemove s keep).state.map = none ∧
     (ComparisonLayer.onRemove s keep).state.gl = none ∧
     (ComparisonLayer.onRemove s keep).state.tileSource = none ∧
     (ComparisonLayer.onRemove s keep).state.sourceCache = none ∧
     (ComparisonLayer.onRemove s keep).state.program = none ∧
     (ComparisonLayer.onRemove s keep).state.observer = false) ∧
    ((ComparisonLayer.onRemove (ComparisonLayer.onRemove s keep).state
        keep2).effects = [] ∧
     (ComparisonLayer.onRemove (ComparisonLayer.onRemove s keep).state
        keep2).glTrace = [] ∧
     (ComparisonLayer.onRemove (ComparisonLayer.onRemove s keep).state
        keep2).state = (ComparisonLayer.onRemove s keep).state) ∧
    ((ComparisonLayer.onRemove (ComparisonLayer.new d pre) b).effects
       = [] ∧
     (ComparisonLayer.onRemove (ComparisonLayer.new d pre) b).glTrace
       = []) := by
  refine ⟨⟨rfl, rfl, rfl, rfl, rfl, rfl⟩, ⟨rfl, rfl, rfl⟩, rfl, rfl⟩

/-- C7: `updateData` replaces the stored offset data wholesale (any
value, no validation or clamping), issues no GL call whatsoever,
requests a repaint exactly when a map reference is held, and leaves
every other field of the controller (program, references, viewport
dimensions, observer, callbacks) untouched. -/
theorem c7_update_data_no_gpu_churn (s : ComparisonLayer)
    (d : ComparisonLayerData) :
    (ComparisonLayer.updateData s d).state = { s with data := d } ∧
    (ComparisonLayer.updateData s d).state.data = d ∧
    (ComparisonLayer.updateData s d).glTrace = [] ∧
    (ComparisonLayer.updateData s d).effects =
      (match s.map with
       | some _ => [HostEffect.triggerRepaint]
       | none => []) ∧
    (ComparisonLayer.updateData s d).state.program = s.program ∧
    (ComparisonLayer.updateData s d).state.map = s.map ∧
    (ComparisonLayer.updateData s d).state.gl = s.gl ∧
    (ComparisonLayer.updateData s d).state.tileSource = s.tileSource ∧
    (ComparisonLayer.updateData s d).state.sourceCache = s.sourceCache ∧
    (ComparisonLayer.updateData s d).state.mapWidth = s.mapWidth ∧
    (ComparisonLayer.updateData s d).state.mapHeight = s.mapHeight ∧
    (ComparisonLayer.updateData s d).state.observer = s.observer := by
  refine ⟨rfl, rfl, rfl, rfl, rfl, rfl, rfl, rfl, rfl, rfl, rfl, rfl⟩

/-- C8 counterexample: on the concrete attached state `layerEx` the
`zoom` handler returns no effect at all — in particular it does not
invoke the tile-refresh action, whose invocation (as the `move`
handler shows on the same state) would produce the
`sourceCacheUpdate` effect. This refutes "each of the two
notifications triggers the tile-refresh action". -/
theorem c8_zoom_counterexample :
    ComparisonLayer.zoom layerEx = Except.ok [] ∧
    ComparisonLayer.move layerEx =
      Except.ok [HostEffect.sourceCacheUpdate] ∧
    HostEffect.sourceCacheUpdate ∉ ([] : List HostEffect) := by
  refine ⟨rfl, rfl, ?_⟩
  simp

/-- C8 (amended): `onAdd` registers handlers for both the host's
"move" and "zoom" notifications, but only the `move` handler routes
to the tile-refresh action (`sourceCache.update`); the registered
`zoom` handler has an empty body and performs no effect. -/
theorem c8_move_zoom_registration_amended (s t : ComparisonLayer)
    (env : GLEnv) (cache cache2 : List Tile) (rectW rectH : ℚ)
    (h1 : t.sourceCache = some cache2) (h2 : t.map = some ()) :
    HostEffect.mapOnMove ∈
      (ComparisonLayer.onAdd s env cache rectW rectH).effects ∧
    HostEffect.mapOnZoom ∈
      (ComparisonLayer.onAdd s env cache rectW rectH).effects ∧
    ComparisonLayer.move t =
      Except.ok [HostEffect.sourceCacheUpdate] ∧
    ComparisonLayer.zoom t = Except.ok [] := by
  refine ⟨?_, ?_, ?_, rfl⟩
  · unfold ComparisonLayer.onAdd
    by_cases hcb : s.hasOnAddCallback
    · rw [if_pos hcb]
      rcases hsetup : setupLayer env s.data with ⟨tr, res⟩
      cases res <;> simp [hsetup]
    · rw [if_neg hcb]; simp
  · unfold ComparisonLayer.onAdd
    by_cases hcb : s.hasOnAddCallback
    · rw [if_pos hcb]
      rcases hsetup : setupLayer env s.data with ⟨tr, res⟩
      cases res <;> simp [hsetup]
    · rw [if_neg hcb]; simp
  · simp [ComparisonLayer.move, ComparisonLayer.updateTiles, h1, h2]

/-- Witness for C8 (amended) at concrete inputs: a fresh controller
attaching on `envOk`, and the attached state `layerEx` as receiver of
the notifications. -/
theorem c8_move_zoom_registration_amended_witness :
    (HostEffect.mapOnMove ∈
       (ComparisonLayer.onAdd (ComparisonLayer.new dataHalf false)
         envOk tilesEx 800 400).effects ∧
     HostEffect.mapOnZoom ∈
       (ComparisonLayer.onAdd (ComparisonLayer.new dataHalf false)
         envOk tilesEx 800 400).effects ∧
     ComparisonLayer.move layerEx =
       Except.ok [HostEffect.sourceCacheUpdate] ∧
     ComparisonLayer.zoom layerEx = Except.ok []) :=
  c8_move_zoom_registration_amended
    (ComparisonLayer.new dataHalf false) layerEx envOk tilesEx tilesEx
    800 400 rfl rfl

/-- C9: `prerender` dereferences the tile cache unguarded — with a
pre-render hook installed it fails with a null dereference whenever
the cache reference is null, which is the case both on a freshly
constructed controller (before attach) and after any detach; without
a pre-render hook it is a silent no-op in every state. By contrast
the `render` method is guarded and is a no-op without a program. -/
theorem c9_prerender_unguarded_null_deref (s : ComparisonLayer)
    (matrix matrix2 matrix3 : List ℚ) (d : ComparisonLayerData)
    (keep : Bool) (dpr : ℚ)
    (hpre : s.hasPreRenderCallback = true) :
    (s.sourceCache = none →
      ComparisonLayer.prerender s matrix =
        Except.error JsError.nullDeref) ∧
    (∀ t : ComparisonLayer, t.hasPreRenderCallback = false →
      ComparisonLayer.prerender t matrix = Except.ok []) ∧
    (ComparisonLayer.prerender (ComparisonLayer.new d true) matrix2 =
      Except.error JsError.nullDeref) ∧
    (ComparisonLayer.prerender (ComparisonLayer.onRemove s keep).state
       matrix3 = Except.error JsError.nullDeref) ∧
    (∀ t : ComparisonLayer, t.program = none →
      ComparisonLayer.render t matrix dpr = Except.ok []) := by
  refine ⟨?_, ?_, rfl, ?_, ?_⟩
  · intro hnone
    simp [ComparisonLayer.prerender, hpre, hnone]
  · intro t ht
    simp [ComparisonLayer.prerender, ht]
  · simp [ComparisonLayer.prerender, ComparisonLayer.onRemove, hpre]
  · intro t ht
    unfold ComparisonLayer.render
    rw [ht]
    by_cases hcb : t.hasRenderCallback <;> simp [hcb]

/-- Witness for C9: a freshly constructed controller with a
pre-render hook (null cache) crashes in `prerender`, both directly
and after a detach, while one without a hook and the guarded
`render` are no-ops. -/
theorem c9_prerender_unguarded_null_deref_witness :
    ((ComparisonLayer.new dataHalf true).sourceCache = none →
      ComparisonLayer.prerender (ComparisonLayer.new dataHalf true) [] =
        Except.error JsError.nullDeref) ∧
    (∀ t : ComparisonLayer, t.hasPreRenderCallback = false →
      ComparisonLayer.prerender t [] = Except.ok []) ∧
    (ComparisonLayer.prerender (ComparisonLayer.new dataHalf true) [] =
      Except.error JsError.nullDeref) ∧
    (ComparisonLayer.prerender
       (ComparisonLayer.onRemove (ComparisonLayer.new dataHalf true)
         false).state [] = Except.error JsError.nullDeref) ∧
    (∀ t : ComparisonLayer, t.program = none →
      ComparisonLayer.render t [] 1 = Except.ok []) :=
  c9_prerender_unguarded_null_deref (ComparisonLayer.new dataHalf true)
    [] [] [] dataHalf false 1 rfl

/-- C10: on the success path `setupLayer` writes the raw normalized
offsets to the uniforms (no viewport multiplication), whereas every
render-hook invocation writes the pixel thresholds
`offsetX * width` / `offsetY * height`; hence for any in-range
initial offset every threshold written by setup is at most 1. -/
theorem c10_setup_initializes_raw_offsets (env : GLEnv)
    (data : ComparisonLayerData) (matrix : List ℚ) (tiles : List Tile)
    (p : ComparisonLayerProgram) (w h dpr : ℚ)
    (h1 : env.createVertexShaderOk = true)
    (h2 : env.vertexCompileOk = true)
    (h3 : env.createFragmentShaderOk = true)
    (h4 : env.fragmentCompileOk = true)
    (h5 : env.createProgramOk = true)
    (h6 : env.linkOk = true)
    (hx1 : data.offsetX ≤ 1) (hy1 : data.offsetY ≤ 1) :
    offsetXWrites (setupLayer env data).1 = [data.offsetX] ∧
    offsetYWrites (setupLayer env data).1 = [data.offsetY] ∧
    offsetXWrites (render matrix tiles p data w h dpr) =
      [data.offsetX * w] ∧
    offsetYWrites (render matrix tiles p data w h dpr) =
      [data.offsetY * h] ∧
    (∀ v ∈ offsetXWrites (setupLayer env data).1, v ≤ 1) ∧
    (∀ v ∈ offsetYWrites (setupLayer env data).1, v ≤ 1) := by
  have hsx : offsetXWrites (setupLayer env data).1 = [data.offsetX] := by
    rw [setupLayer_success env data h1 h2 h3 h4 h5 h6]
    simp [offsetXWrites]
  have hsy : offsetYWrites (setupLayer env data).1 = [data.offsetY] := by
    rw [setupLayer_success env data h1 h2 h3 h4 h5 h6]
    simp [offsetYWrites]
  have hfx := offsetXWrites_flatMap tiles
  have hfy := offsetYWrites_flatMap tiles
  refine ⟨hsx, hsy, ?_, ?_, ?_, ?_⟩
  · simp only [render, offsetXWrites, List.filterMap_append] at *
    rw [hfx]
    rfl
  · simp only [render, offsetYWrites, List.filterMap_append] at *
    rw [hfy]
    rfl
  · rw [hsx]
    intro v hv
    rw [List.mem_singleton] at hv
    rw [hv]
    exact hx1
  · rw [hsy]
    intro v hv
    rw [List.mem_singleton] at hv
    rw [hv]
    exact hy1

/-- Witness for C10 on the all-success environment with offsets
(1/2, 1/4) and a render at viewport 800×400. -/
theorem c10_setup_initializes_raw_offsets_witness :
    offsetXWrites (setupLayer envOk dataHalf).1 = [dataHalf.offsetX] ∧
    offsetYWrites (setupLayer envOk dataHalf).1 = [dataHalf.offsetY] ∧
    offsetXWrites (render [] tilesEx progEx dataHalf 800 400 1) =
      [dataHalf.offsetX * 800] ∧
    offsetYWrites (render [] tilesEx progEx dataHalf 800 400 1) =
      [dataHalf.offsetY * 400] ∧
    (∀ v ∈ offsetXWrites (setupLayer envOk dataHalf).1, v ≤ 1) ∧
    (∀ v ∈ offsetYWrites (setupLayer envOk dataHalf).1, v ≤ 1) :=
  c10_setup_initializes_raw_offsets envOk dataHalf [] tilesEx progEx
    800 400 1 rfl rfl rfl rfl rfl rfl (by norm_num [dataHalf])
    (by norm_num [dataHalf])
